import Mathlib

/-!
# MailGuard analysis orchestrator: a shallow embedding

This file embeds the core of the `mailguard` email-threat-triage backend in
Lean 4 and proves the specification's testable properties about it.

Embedded source files:
* `backend/engine/domain.py`     (`analyze_domain`)
* `backend/engine/url.py`        (`scan_urls`)
* `backend/engine/forensics.py`  (`analyze_attachments`)
* `backend/engine/social.py`     (`detect_social_engineering`)
* `backend/engine/orchestrator.py`
  (`calculate_final_risk_score`, `classify_threat`, `analyze_email_content`)
* `backend/models/schemas.py`    (pydantic models; field validation is made
  explicit as `Except`-returning smart constructors)

Modelling conventions:
* Python `str` is `String`; all character-level operations (`in`, `endswith`,
  slicing, `lower()`) are defined on `String.data` so that they reduce in the
  kernel.  Python's `lower()` is modelled on ASCII letters, which is exact for
  every pattern the analyzers test against.
* Python dictionaries returned by analyzers become the record `AnalyzerDict`
  whose fields are all `Option`al: `dict.get(k, d)` is `(field).getD d`, and a
  missing key is `none`.  An email attachment (`Dict[str, str]`) is an
  association list, so a lookup of a missing key can be observed (this matters:
  the orchestrator subscripts `a['filename']`, which raises `KeyError`).
* Wall-clock readings, `datetime.utcnow().isoformat()` and the seeded
  `random.randint` calls are free inputs (oracle parameters): the embedded
  functions are total in them and every theorem quantifies over them.
* `asyncio.gather(..., return_exceptions=True)` resolves each analyzer call to
  either its result dictionary or an exception; the behaviour of one run is a
  `CallBehavior` assigning each of the four calls an optional exception.
* Python `float` arithmetic is IEEE-754 binary64 with round-to-nearest-even.
  Every value occurring in `calculate_final_risk_score` on scores in [0,100] is
  a nonnegative dyadic rational that is an integer multiple of 2⁻⁵⁵, so doubles
  are embedded as natural numbers scaled by 2⁵⁵ and rounding (`flS`) rounds to
  the 53-bit significand grid of the value's binade.  The four weight literals
  `0.35`, `0.30`, `0.20`, `0.15` appear as the exact scaled integer values of
  the doubles those literals denote.
-/

namespace MailGuard

/-! ## Python string primitives on `List Char` -/

/-- ASCII `str.lower` on one character (`'A'..'Z'` map to `'a'..'z'`). -/
def lowerChar (c : Char) : Char :=
  if 'A' ≤ c ∧ c ≤ 'Z' then Char.ofNat (c.toNat + 32) else c

/-- Python `s.lower()`. -/
def pyLower (s : String) : String := ⟨s.data.map lowerChar⟩

/-- Python's substring test `pat in s`. -/
def strContains (s pat : String) : Bool :=
  (List.range (s.data.length + 1)).any fun i => pat.data.isPrefixOf (s.data.drop i)

/-- Python `s.endswith(pat)`. -/
def strEndsWith (s pat : String) : Bool := pat.data.isSuffixOf s.data

/-- Python slice `s[:n]`. -/
def pySlice (s : String) (n : ℕ) : String := ⟨s.data.take n⟩

/-- Python `sender_email.split('@')[-1]`: the segment after the last `'@'`
(the whole string when no `'@'` occurs). -/
def afterLastAt (s : String) : String :=
  ⟨(s.data.reverse.takeWhile (fun c => c ≠ '@')).reverse⟩

/-- Python `s.replace(a, b)` for single characters. -/
def pyReplace (s : String) (a b : Char) : String :=
  ⟨s.data.map fun c => if c = a then b else c⟩

/-! ## Analyzer result dictionaries

One record covers the result dictionaries of all four analyzers (a Python dict
is heterogeneous); each analyzer populates its own keys and leaves the rest
`none`.  The orchestrator's fallback dictionaries populate only a score and
`output_summary`. -/

/-- The `Dict[str, Any]` an analyzer resolves to.  `none` = key absent. -/
structure AnalyzerDict where
  domain : Option String := none
  trust_score : Option Int := none
  domain_age_days : Option Int := none
  risk_factors : Option (List String) := none
  urls_found : Option Int := none
  risk_score : Option Int := none
  findings : Option (List String) := none
  execution_time_ms : Option Int := none
  output_summary : Option String := none
deriving DecidableEq

/-- A Python `Dict[str, str]` attachment, as an association list. -/
def Attachment : Type := List (String × String)

instance : DecidableEq Attachment := by unfold Attachment; infer_instance

/-- Python `att.get(k)` on an attachment dict. -/
def attGet (att : Attachment) (k : String) : Option String :=
  (List.find? (fun kv => kv.1 == k) att).map (fun kv => kv.2)

/-! ## `backend/engine/domain.py` — `analyze_domain`

`await asyncio.sleep` is dropped (pure timing).  The MD5-seeded
`random.randint(lo, hi)` calls and the measured `execution_time_ms` are oracle
parameters; no theorem depends on their values. -/

def safe_domains : List String := ["company.com", "gmail.com", "outlook.com", "microsoft.com"]

def phishing_patterns : List String :=
  ["paypa1", "paypal-", "amaz0n", "amazon-", "g00gle", "micros0ft",
   "apple-", "verify", "secure", "account-", "support-"]

def malware_domains : List String := ["payro11", ".tk", ".ml", ".ga", ".ru", ".cn"]

def legitimate_brands : List String :=
  ["google.com", "microsoft.com", "paypal.com", "apple.com", "amazon.com"]

def suspicious_tlds : List String := [".tk", ".ml", ".ga", ".cf", ".buzz", ".ru"]

/-- The typosquat test of the `for brand in legitimate_brands` loop:
`brand.replace('a','4') in domain or brand.replace('o','0') in domain or
brand.replace('l','1') in domain`. -/
def brandMatches (domain brand : String) : Bool :=
  strContains domain (pyReplace brand 'a' '4') ||
  strContains domain (pyReplace brand 'o' '0') ||
  strContains domain (pyReplace brand 'l' '1')

/-- `max(0, min(100, z))`, the clamp the analyzers apply. -/
def clamp0100 (z : Int) : Int := max 0 (min 100 z)

/-- First stage of `analyze_domain`: the `if is_malware / elif is_phishing /
elif is_safe / else (for … else)` ladder, producing
`(trust_score, risk_factors, domain_age_days)`. -/
def domainBase (domain : String) (randint : Int → Int → Int) : Int × List String × Int :=
  if malware_domains.any (fun p => strContains domain p) then
    (5, ["CRITICAL: Domain associated with malware distribution",
         "Domain recently flagged in threat intelligence feeds"], randint 1 30)
  else if phishing_patterns.any (fun p => strContains domain p) then
    (15, ["WARNING: Typosquatting detected - impersonating legitimate brand",
          "Domain mimics trusted service provider"], randint 1 60)
  else if safe_domains.any (fun p => strContains domain p) then
    (95, [], randint 1000 3650)
  else
    match legitimate_brands.find? (fun brand => brandMatches domain brand) with
    | some brand => (20, ["Possible impersonation of " ++ brand], randint 1 90)
    | none => (60, [], randint 90 365)

/-- `analyze_domain(sender_email)` from `backend/engine/domain.py`. -/
def analyze_domain (sender_email : String) (randint : Int → Int → Int)
    (execTime : Int) : AnalyzerDict :=
  let domain := pyLower (afterLastAt sender_email)
  let base := domainBase domain randint
  let trust₀ := base.1
  let factors₀ := base.2.1
  let age := base.2.2
  let tldHit := suspicious_tlds.any (fun tld => strEndsWith domain tld)
  let trust₁ := if tldHit then max 0 (trust₀ - 40) else trust₀
  let factors₁ := if tldHit then
      factors₀ ++ ["Suspicious top-level domain commonly used in attacks"] else factors₀
  let young := age < 90
  let trust₂ := if young then max 0 (trust₁ - 20) else trust₁
  let factors₂ := if young then
      factors₁ ++ ["Newly registered domain (" ++ toString age ++ " days old)"] else factors₁
  let trust := clamp0100 trust₂
  { domain := some domain,
    trust_score := some trust,
    domain_age_days := some age,
    risk_factors := some factors₂,
    execution_time_ms := some execTime,
    output_summary := some ("Domain: " ++ domain ++ " | Trust Score: " ++ toString trust
      ++ "/100 | Age: " ++ toString age ++ " days | "
      ++ (if factors₂.isEmpty then "Domain appears legitimate"
          else String.intercalate ", " factors₂)) }

/-! ## `backend/engine/url.py` — `scan_urls`

The URL extraction regex
`http[s]?://(?:[a-zA-Z]|[0-9]|[$-_@.&+]|[!*\\(\\),]|(?:%[0-9a-fA-F][0-9a-fA-F]))+`
is implemented directly: since `%` lies in the range `$-_`, each repetition of
the group consumes exactly one character of the combined single-character
class, so a match is `http`, an optional `s`, `://`, then a maximal nonempty
run of URL characters.  `re.findall` scans left to right, non-overlapping. -/

/-- One character of the regex's character class:
`[a-zA-Z]`, `[0-9]`, the range `[$-_]` (with `@.&+` inside it), or `[!*\(\),]`. -/
def urlChar (c : Char) : Bool :=
  c.isAlpha || c.isDigit || (0x24 ≤ c.toNat && c.toNat ≤ 0x5F) ||
  c = '!' || c = '*' || c = '\\' || c = '(' || c = ')' || c = ','

/-- Maximal run of `urlChar`s: the greedy `(...)+` body. -/
def takeUrlRun : List Char → List Char × List Char
  | [] => ([], [])
  | c :: cs =>
    if urlChar c then
      let r := takeUrlRun cs
      (c :: r.1, r.2)
    else ([], c :: cs)

/-- After the literal `http`, match `[s]?://` (with the regex's backtracking on
the optional `s`), returning the consumed scheme tail and the remainder. -/
def matchSchemeTail : List Char → Option (List Char × List Char)
  | 's' :: ':' :: '/' :: '/' :: r => some (['s', ':', '/', '/'], r)
  | ':' :: '/' :: '/' :: r => some ([':', '/', '/'], r)
  | _ => none

/-- Try to match the URL regex at the head of `cs`; on success return the
matched text and the remaining input. -/
def matchUrlAt (cs : List Char) : Option (List Char × List Char) :=
  match cs with
  | 'h' :: 't' :: 't' :: 'p' :: rest =>
    match matchSchemeTail rest with
    | none => none
    | some (tail, r) =>
      let run := takeUrlRun r
      if run.1.isEmpty then none
      else some ('h' :: 't' :: 't' :: 'p' :: tail ++ run.1, run.2)
  | _ => none

/-- `re.findall` scanning loop (fuel = remaining input length suffices because
every step consumes at least one character). -/
def findAllUrls : ℕ → List Char → List String
  | 0, _ => []
  | _, [] => []
  | fuel + 1, c :: cs =>
    match matchUrlAt (c :: cs) with
    | some (m, rest) => String.mk m :: findAllUrls fuel rest
    | none => findAllUrls fuel cs

/-- `re.findall(url_pattern, email_body)`. -/
def extractUrls (body : String) : List String := findAllUrls body.data.length body.data

/-- Leading digit run: `(count, rest)`. -/
def takeDigits : List Char → ℕ × List Char
  | [] => (0, [])
  | c :: cs =>
    if c.isDigit then
      let r := takeDigits cs
      (r.1 + 1, r.2)
    else (0, c :: cs)

/-- One `\d{1,3}\.` group of the IP regex.  Greedy matching with backtracking
succeeds exactly when the leading digit run has length 1–3 and is followed by
a literal `'.'`. -/
def digitGroupDot (cs : List Char) : Option (List Char) :=
  let r := takeDigits cs
  if 1 ≤ r.1 ∧ r.1 ≤ 3 then
    match r.2 with
    | '.' :: rest => some rest
    | _ => none
  else none

/-- `re.match(r'https?://\d{1,3}\.\d{1,3}\.\d{1,3}\.\d{1,3}', url)` as a
Boolean (anchored prefix match). -/
def isIpUrl (url : String) : Bool :=
  match url.data with
  | 'h' :: 't' :: 't' :: 'p' :: rest =>
    match matchSchemeTail rest with
    | none => false
    | some (_, r) =>
      match digitGroupDot r with
      | none => false
      | some r1 =>
        match digitGroupDot r1 with
        | none => false
        | some r2 =>
          match digitGroupDot r2 with
          | none => false
          | some r3 => 1 ≤ (takeDigits r3).1
  | _ => false

def shorteners : List String := ["bit.ly", "tinyurl.com", "t.co", "goo.gl", "ow.ly", "tiny.cc"]

def suspicious_url_keywords : List String :=
  ["verify", "secure", "account", "login", "signin", "update",
   "confirm", "suspended", "unusual"]

def url_typosquat_patterns : List String := ["paypa1", "amaz0n", "g00gle", "micros0ft"]

/-- Body of `for url in urls` in `scan_urls`: four independent checks, each
adding to `risk_score` and appending a finding. -/
def urlStep (acc : Int × List String) (url : String) : Int × List String :=
  let ipHit := isIpUrl url
  let r₁ := if ipHit then acc.1 + 45 else acc.1
  let f₁ := if ipHit then
      acc.2 ++ ["CRITICAL: IP-based URL detected (phishing indicator): " ++ pySlice url 50]
    else acc.2
  let shortHit := shorteners.any (fun s => strContains url s)
  let r₂ := if shortHit then r₁ + 35 else r₁
  let f₂ := if shortHit then
      f₁ ++ ["WARNING: URL shortener detected (hides real destination): " ++ pySlice url 50]
    else f₁
  let kwHit := suspicious_url_keywords.any (fun k => strContains (pyLower url) k)
  let r₃ := if kwHit then r₂ + 25 else r₂
  let f₃ := if kwHit then f₂ ++ ["Suspicious keyword in URL: " ++ pySlice url 50] else f₂
  let typoHit := url_typosquat_patterns.any (fun p => strContains (pyLower url) p)
  let r₄ := if typoHit then r₃ + 40 else r₃
  let f₄ := if typoHit then
      f₃ ++ ["CRITICAL: Typosquatting domain in URL: " ++ pySlice url 50]
    else f₃
  (r₄, f₄)

/-- `scan_urls(email_body)` from `backend/engine/url.py`. -/
def scan_urls (email_body : String) (execTime : Int) : AnalyzerDict :=
  let urls := extractUrls email_body
  let acc := urls.foldl urlStep (0, [])
  let risk := min acc.1 100
  { urls_found := some (urls.length : Int),
    risk_score := some risk,
    findings := some acc.2,
    execution_time_ms := some execTime,
    output_summary := some ("Found " ++ toString urls.length ++ " URL(s) | Risk: "
      ++ toString risk ++ "/100 | "
      ++ (if acc.2.isEmpty then "No suspicious URLs detected"
          else String.intercalate ", " (acc.2.take 2))) }

/-! ## `backend/engine/social.py` — `detect_social_engineering` -/

def critical_urgency : List String :=
  ["urgent", "immediate action", "suspended", "verify now", "within 24 hours",
   "account will be closed", "unusual activity", "temporarily suspended"]

def urgency_keywords : List String :=
  ["action required", "expires", "hurry", "limited time", "act now"]

def credential_keywords : List String :=
  ["verify your account", "confirm your identity", "update password",
   "login here", "click here to verify", "confirm payment method",
   "verify identity", "update billing"]

def financial_keywords : List String :=
  ["wire transfer", "bitcoin", "bank account", "payment required",
   "financial information", "credit card"]

def threat_keywords : List String :=
  ["permanently closed", "legal action", "suspended", "blocked",
   "terminate", "consequences", "unauthorized access"]

def malware_text_patterns : List String :=
  ["enable macros", "macroEnabled", "open attachment", "run this file",
   "disable antivirus", "confidential document"]

/-- The six keyword passes of `detect_social_engineering`, producing
`(risk_score, findings)` before the final `min(…, 100)`. -/
def socialRaw (text : String) : Int × List String :=
  let h₁ := critical_urgency.any (fun k => strContains text k)
  let r₁ : Int := if h₁ then 0 + 35 else 0
  let f₁ : List String := if h₁ then ["CRITICAL: Extreme urgency tactics detected"] else []
  let h₂ := urgency_keywords.any (fun k => strContains text k)
  let r₂ := if h₂ then r₁ + 20 else r₁
  let f₂ := if h₂ then f₁ ++ ["Urgency language detected"] else f₁
  let h₃ := credential_keywords.any (fun k => strContains text k)
  let r₃ := if h₃ then r₂ + 40 else r₂
  let f₃ := if h₃ then f₂ ++ ["CRITICAL: Credential harvesting pattern detected"] else f₂
  let h₄ := financial_keywords.any (fun k => strContains text k)
  let r₄ := if h₄ then r₃ + 25 else r₃
  let f₄ := if h₄ then f₃ ++ ["Financial transaction language detected"] else f₃
  let h₅ := threat_keywords.any (fun k => strContains text k)
  let r₅ := if h₅ then r₄ + 30 else r₄
  let f₅ := if h₅ then f₄ ++ ["Fear-based manipulation tactics detected"] else f₄
  let h₆ := malware_text_patterns.any (fun k => strContains text k)
  let r₆ := if h₆ then r₅ + 35 else r₅
  let f₆ := if h₆ then f₅ ++ ["CRITICAL: Malware delivery patterns detected"] else f₅
  (r₆, f₆)

/-- `detect_social_engineering(subject, body)` from `backend/engine/social.py`. -/
def detect_social_engineering (subject body : String) (execTime : Int) : AnalyzerDict :=
  let text := pyLower (subject ++ " " ++ body)
  let acc := socialRaw text
  let risk := min acc.1 100
  { risk_score := some risk,
    findings := some acc.2,
    execution_time_ms := some execTime,
    output_summary := some ("Social Engineering Risk: " ++ toString risk ++ "/100 | "
      ++ (if acc.2.isEmpty then "No manipulation patterns detected"
          else String.intercalate ", " acc.2)) }

/-! ## `backend/engine/forensics.py` — `analyze_attachments` -/

def doubleExtDanger : List String := [".exe", ".scr", ".bat", ".cmd"]

def executableExts : List String := [".exe", ".scr", ".bat", ".cmd", ".vbs", ".js", ".jar", ".msi"]

def docmExts : List String := [".docm", ".xlsm", ".pptm", ".xlam", ".dotm"]

def archiveExts : List String := [".zip", ".rar", ".7z", ".tar", ".gz"]

def scriptExts : List String := [".ps1", ".vbs", ".wsf", ".hta"]

/-- Body of `for att in attachments` in `analyze_attachments`. -/
def attStep (acc : Int × List String) (att : Attachment) : Int × List String :=
  let filename := (attGet att "filename").getD ""
  let lowered := pyLower filename
  if filename.data.count '.' ≥ 2 ∧
      doubleExtDanger.any (fun e => strContains lowered e) then
    (100, acc.2 ++ ["🚨 CRITICAL THREAT: Double extension attack detected in '"
      ++ filename ++ "' - DEFINITE MALWARE"])
  else if executableExts.any (fun e => strEndsWith lowered e) then
    (max acc.1 95, acc.2 ++ ["🚨 MALWARE DETECTED: Executable file '" ++ filename
      ++ "' - IMMEDIATE THREAT"])
  else if docmExts.any (fun e => strEndsWith lowered e) then
    (max acc.1 85, acc.2 ++ ["⚠️ CRITICAL: Macro-enabled document '" ++ filename
      ++ "' - HIGH MALWARE RISK"])
  else if archiveExts.any (fun e => strEndsWith lowered e) then
    (max acc.1 40, acc.2 ++ ["WARNING: Compressed file '" ++ filename
      ++ "' may contain hidden malware"])
  else if scriptExts.any (fun e => strEndsWith lowered e) then
    (max acc.1 90, acc.2 ++ ["🚨 MALWARE: Script file '" ++ filename
      ++ "' - DANGEROUS PAYLOAD"])
  else acc

/-- `analyze_attachments(attachments)` from `backend/engine/forensics.py`. -/
def analyze_attachments (attachments : List Attachment) (execTime : Int) : AnalyzerDict :=
  if attachments.isEmpty then
    { risk_score := some 0,
      findings := some [],
      execution_time_ms := some 50,
      output_summary := some "No attachments to analyze" }
  else
    let acc := attachments.foldl attStep (0, [])
    { risk_score := some acc.1,
      findings := some acc.2,
      execution_time_ms := some execTime,
      output_summary := some ("Analyzed " ++ toString attachments.length
        ++ " file(s) | Risk: " ++ toString acc.1 ++ "/100 | "
        ++ (acc.2.head?.getD "All files appear safe")) }

/-! ## `backend/models/schemas.py`

pydantic field validation (`Field(ge=0, le=100)`) can reject a construction at
runtime, so the validated models get `Except`-returning smart constructors.
`EmailAnalysisRequest` validation (`EmailStr`, subject/body length bounds,
`List[Dict[str, str]]` attachments) constrains nothing any claim depends on;
note that it does NOT require an attachment dict to contain a `'filename'`
key. -/

structure EmailAnalysisRequest where
  sender_email : String
  subject : String
  body : String
  attachments : List Attachment := []
deriving DecidableEq

inductive ThreatClassification where
  | SAFE
  | SUSPICIOUS
  | MALICIOUS
deriving DecidableEq

/-- A value of a `Dict[str, Any]` entry in a trace's `input_params`. -/
inductive PyVal where
  | str (v : String)
  | int (v : Int)
  | strList (v : List String)
deriving DecidableEq

structure ToolExecutionTrace where
  tool_name : String
  called_at : String
  input_params : List (String × PyVal)
  output_summary : String
  execution_time_ms : Int
deriving DecidableEq

structure AggregatedScores where
  url_risk : Int
  domain_risk : Int
  attachment_risk : Int
  social_engineering_risk : Int
deriving DecidableEq

/-- `AggregatedScores(...)`: every field is validated `ge=0, le=100`. -/
def mkAggregatedScores (url domain attach social : Int) : Except String AggregatedScores :=
  if 0 ≤ url ∧ url ≤ 100 ∧ 0 ≤ domain ∧ domain ≤ 100 ∧
     0 ≤ attach ∧ attach ≤ 100 ∧ 0 ≤ social ∧ social ≤ 100 then
    .ok ⟨url, domain, attach, social⟩
  else .error "ValidationError: AggregatedScores"

structure SecurityVerdict where
  email_metadata : List (String × String)
  tool_execution_trace : List ToolExecutionTrace
  aggregated_scores : AggregatedScores
  final_risk_score : Int
  classification : ThreatClassification
  recommended_action : String
  reasoning_summary : String
  confidence_percentage : Int
deriving DecidableEq

/-- `SecurityVerdict(...)`: `final_risk_score` and `confidence_percentage` are
validated `ge=0, le=100`. -/
def mkSecurityVerdict (md : List (String × String)) (trace : List ToolExecutionTrace)
    (scores : AggregatedScores) (final : Int) (cls : ThreatClassification)
    (action reasoning : String) (conf : Int) : Except String SecurityVerdict :=
  if 0 ≤ final ∧ final ≤ 100 ∧ 0 ≤ conf ∧ conf ≤ 100 then
    .ok ⟨md, trace, scores, final, cls, action, reasoning, conf⟩
  else .error "ValidationError: SecurityVerdict"

/-! ## IEEE-754 binary64 scaled-integer model

`calculate_final_risk_score` evaluates
`att*0.35 + dom*0.30 + url*0.20 + soc*0.15` in Python floats.  Every
intermediate value is a nonnegative multiple of 2⁻⁵⁵ below 2⁵⁹·2⁻⁵⁵·…, so we
carry values as naturals scaled by 2⁵⁵.  `flS` is binary64 rounding
(round-to-nearest, ties-to-even, on the 53-bit significand grid of the value's
binade); it is the identity below 2⁵³ (scaled), i.e. on exactly representable
values. -/

/-- Fueled ⌊log₂⌋ (`log2f 64` is exact for inputs < 2⁶⁴, and every value this
file rounds is < 2⁶³). -/
def log2f : ℕ → ℕ → ℕ
  | 0, _ => 0
  | fuel + 1, n => if n < 2 then 0 else log2f fuel (n / 2) + 1

/-- Round a 2⁻⁵⁵-scaled nonnegative value to the binary64 grid
(round-to-nearest, ties-to-even). -/
def flS (x : ℕ) : ℕ :=
  let sig := 2 ^ (log2f 64 x - 52)
  let q := x / sig
  let r := x % sig
  if 2 * r < sig then q * sig
  else if sig < 2 * r then (q + 1) * sig
  else if q % 2 = 0 then q * sig else (q + 1) * sig

/-- The double denoted by the literal `0.35`, scaled by 2⁵⁵. -/
def w35S : ℕ := 12610078956637388

/-- The double denoted by the literal `0.30`, scaled by 2⁵⁵. -/
def w30S : ℕ := 10808639105689190

/-- The double denoted by the literal `0.20`, scaled by 2⁵⁵. -/
def w20S : ℕ := 7205759403792794

/-- The double denoted by the literal `0.15`, scaled by 2⁵⁵. -/
def w15S : ℕ := 5404319552844595

/-- The float expression
`(att*0.35) + (dom*0.30) + (url*0.20) + (soc*0.15)` (left-associated sums,
each product and each sum rounded), scaled by 2⁵⁵. -/
def weightedScaled (att dom url soc : ℕ) : ℕ :=
  let t₁ := flS (att * w35S)
  let t₂ := flS (dom * w30S)
  let t₃ := flS (url * w20S)
  let t₄ := flS (soc * w15S)
  flS (flS (flS (t₁ + t₂) + t₃) + t₄)

/-- `calculate_final_risk_score(scores)` from `backend/engine/orchestrator.py`:
`min(int(weighted_score), 100)`.  `int()` truncates toward zero; the value is
nonnegative, so it is the floor, i.e. division by 2⁵⁵ on the scaled value.
(`AggregatedScores` is pydantic-validated to [0,100], so `Int.toNat` is exact
at every call site.) -/
def calculate_final_risk_score (scores : AggregatedScores) : Int :=
  min ((weightedScaled scores.attachment_risk.toNat scores.domain_risk.toNat
        scores.url_risk.toNat scores.social_engineering_risk.toNat / 2 ^ 55 : ℕ) : Int) 100

/-- `classify_threat(risk_score)` from `backend/engine/orchestrator.py`. -/
def classify_threat (risk_score : Int) : ThreatClassification × String :=
  if 61 ≤ risk_score then (.MALICIOUS, "block_sender")
  else if 31 ≤ risk_score then (.SUSPICIOUS, "warn_user")
  else (.SAFE, "allow")

/-! ## Reasoning narrative (orchestrator lines 136–171)

The string literals below reproduce the source bytes exactly (the source file
stores its symbol glyphs in a doubly-encoded form; the escapes spell out those
code points). -/

def attClauseHigh : String := "üö® MALWARE DETECTED in attachments"

def attClauseMed : String := "‚ö†Ô∏è Dangerous attachment detected"

def domClauseHigh : String := "üö® PHISHING: Domain impersonating trusted brand"

def domClauseMed : String := "‚ö†Ô∏è Suspicious sender domain"

def urlClause : String := "‚ö†Ô∏è Malicious URLs attempting to steal credentials"

def socClause : String :=
  "‚ö†Ô∏è Manipulation tactics designed to extract sensitive information"

def noConcernsMsg : String :=
  "‚úÖ Email appears legitimate with no significant security concerns. All checks passed successfully."

def preMal : String := "üö® CRITICAL MALWARE THREAT: "

def sufMal : String :=
  ". This email contains dangerous malware attempting to compromise your system. QUARANTINE IMMEDIATELY and notify security team."

def prePhish : String := "üö® CRITICAL PHISHING ATTACK: "

def sufPhish : String :=
  ". Attackers are impersonating a trusted entity to steal your credentials or financial information. DO NOT CLICK any links or provide any information."

def preGeneric : String := "üö® CRITICAL THREAT DETECTED: "

def sufGeneric : String := ". Immediate action required to prevent security breach."

def preSuspicious : String := "‚ö†Ô∏è SUSPICIOUS EMAIL: "

def sufSuspicious : String :=
  ". Exercise extreme caution - this may be a phishing attempt. Verify sender through alternate channels before taking any action."

/-- The clause the attachment component appends when it exceeds 60. -/
def attClause (scores : AggregatedScores) : String :=
  if 80 < scores.attachment_risk then attClauseHigh else attClauseMed

/-- The clause the domain component appends when it exceeds 60. -/
def domClause (scores : AggregatedScores) : String :=
  if 80 < scores.domain_risk then domClauseHigh else domClauseMed

/-- `reasoning_parts` after the four component checks. -/
def reasoningParts (scores : AggregatedScores) : List String :=
  (if 60 < scores.attachment_risk then [attClause scores] else []) ++
  (if 60 < scores.domain_risk then [domClause scores] else []) ++
  (if 60 < scores.url_risk then [urlClause] else []) ++
  (if 60 < scores.social_engineering_risk then [socClause] else [])

/-- `threat_level` after the component checks: the attachment branches set it
to `"malware"` unconditionally; the domain branches set `"phishing"` only if it
is still `"unknown"`; the url/social branches never touch it. -/
def threatLevel (scores : AggregatedScores) : String :=
  if 60 < scores.attachment_risk then "malware"
  else if 60 < scores.domain_risk then "phishing"
  else "unknown"

/-- The reasoning narrative (orchestrator lines 161–171) as a function of the
aggregated scores and the classification. -/
def genReasoning (scores : AggregatedScores) (cls : ThreatClassification) : String :=
  let parts := reasoningParts scores
  if parts.isEmpty then noConcernsMsg
  else if cls = .MALICIOUS then
    if threatLevel scores = "malware" then
      preMal ++ (String.intercalate ", " parts ++ sufMal)
    else if threatLevel scores = "phishing" then
      prePhish ++ (String.intercalate ", " parts ++ sufPhish)
    else
      preGeneric ++ (String.intercalate ", " parts ++ sufGeneric)
  else
    preSuspicious ++ (String.intercalate ", " parts ++ sufSuspicious)

/-! ## The orchestrator — `analyze_email_content`

`asyncio.gather(..., return_exceptions=True)` resolves each of the four calls
to its result dictionary or to an exception; the subsequent `for i, res in
enumerate(results)` loop substitutes a per-analyzer fallback dictionary for
each exception.  Trace building precedes score aggregation, and
`a['filename']` inside the attachment trace entry can raise `KeyError`; both
pydantic constructions can raise `ValidationError`.  All exception paths are
explicit `Except.error` values. -/

def domainFallback : AnalyzerDict := { trust_score := some 100, output_summary := some "Analysis failed" }

def urlFallback : AnalyzerDict := { risk_score := some 0, output_summary := some "Analysis failed" }

def fileFallback : AnalyzerDict := { risk_score := some 0, output_summary := some "Analysis failed" }

def socialFallback : AnalyzerDict := { risk_score := some 0, output_summary := some "Analysis failed" }

/-- The exception-substitution loop, per slot: keep a result dictionary,
replace an exception by the slot's fallback. -/
def resolveResult (fallback : AnalyzerDict) : Except String AnalyzerDict → AnalyzerDict
  | .ok d => d
  | .error _ => fallback

/-- `[a['filename'] for a in parsed_email.attachments]`: left-to-right, raising
`KeyError` at the first attachment without a `'filename'` key. -/
def filenamesOf : List Attachment → Except String (List String)
  | [] => .ok []
  | a :: rest =>
    match attGet a "filename" with
    | some v =>
      match filenamesOf rest with
      | .ok vs => .ok (v :: vs)
      | .error e => .error e
    | none => .error "KeyError: 'filename'"

def domainTraceEntry (req : EmailAnalysisRequest) (nowIso : String)
    (d : AnalyzerDict) : ToolExecutionTrace :=
  { tool_name := "check_domain_reputation",
    called_at := nowIso,
    input_params := [("sender_email", .str req.sender_email)],
    output_summary := d.output_summary.getD "",
    execution_time_ms := d.execution_time_ms.getD 0 }

def urlTraceEntry (req : EmailAnalysisRequest) (nowIso : String)
    (u : AnalyzerDict) : ToolExecutionTrace :=
  { tool_name := "scan_urls",
    called_at := nowIso,
    input_params := [("email_body", .str (pySlice req.body 50 ++ "..."))],
    output_summary := u.output_summary.getD "",
    execution_time_ms := u.execution_time_ms.getD 0 }

def fileTraceEntry (nowIso : String) (f : AnalyzerDict)
    (names : List String) : ToolExecutionTrace :=
  { tool_name := "analyze_attachments",
    called_at := nowIso,
    input_params := [("filenames", .strList names)],
    output_summary := f.output_summary.getD "",
    execution_time_ms := f.execution_time_ms.getD 0 }

def socialTraceEntry (req : EmailAnalysisRequest) (nowIso : String)
    (s : AnalyzerDict) : ToolExecutionTrace :=
  { tool_name := "detect_social_engineering",
    called_at := nowIso,
    input_params := [("subject", .str req.subject), ("body_length", .int req.body.data.length)],
    output_summary := s.output_summary.getD "",
    execution_time_ms := s.execution_time_ms.getD 0 }

/-- Orchestrator lines 73–193: everything after `asyncio.gather`, as a function
of the four gathered results. -/
def orchestrate (req : EmailAnalysisRequest) (nowIso : String)
    (rd ru rf rs : Except String AnalyzerDict) : Except String SecurityVerdict :=
  let domain_result := resolveResult domainFallback rd
  let url_result := resolveResult urlFallback ru
  let file_result := resolveResult fileFallback rf
  let social_result := resolveResult socialFallback rs
  let fileEntries : Except String (List ToolExecutionTrace) :=
    if req.attachments.isEmpty then .ok []
    else
      match filenamesOf req.attachments with
      | .ok names => .ok [fileTraceEntry nowIso file_result names]
      | .error e => .error e
  match fileEntries with
  | .error e => .error e
  | .ok fes =>
    let trace_log := [domainTraceEntry req nowIso domain_result,
                      urlTraceEntry req nowIso url_result] ++ fes ++
                     [socialTraceEntry req nowIso social_result]
    match mkAggregatedScores (url_result.risk_score.getD 0)
        (100 - domain_result.trust_score.getD 100)
        (file_result.risk_score.getD 0)
        (social_result.risk_score.getD 0) with
    | .error e => .error e
    | .ok scores =>
      let final_score := calculate_final_risk_score scores
      let cls := (classify_threat final_score).1
      let action := (classify_threat final_score).2
      let reasoning := genReasoning scores cls
      mkSecurityVerdict
        [("sender", req.sender_email), ("subject", req.subject), ("analyzed_at", nowIso)]
        trace_log scores final_score cls action reasoning 92

/-- The oracle inputs of one orchestrator run: the seeded `randint`, the
`utcnow().isoformat()` reading, and each analyzer's measured duration. -/
structure Oracles where
  randint : Int → Int → Int
  nowIso : String
  domainTime : Int
  urlTime : Int
  fileTime : Int
  socialTime : Int

/-- One behaviour of the four awaited analyzer calls: each either resolves to
its result dictionary (`none`) or raises the given exception (`some e`). -/
structure CallBehavior where
  domainExn : Option String := none
  urlExn : Option String := none
  fileExn : Option String := none
  socialExn : Option String := none

def domainCall (req : EmailAnalysisRequest) (o : Oracles)
    (beh : CallBehavior) : Except String AnalyzerDict :=
  match beh.domainExn with
  | some e => .error e
  | none => .ok (analyze_domain req.sender_email o.randint o.domainTime)

def urlCall (req : EmailAnalysisRequest) (o : Oracles)
    (beh : CallBehavior) : Except String AnalyzerDict :=
  match beh.urlExn with
  | some e => .error e
  | none => .ok (scan_urls req.body o.urlTime)

def fileCall (req : EmailAnalysisRequest) (o : Oracles)
    (beh : CallBehavior) : Except String AnalyzerDict :=
  match beh.fileExn with
  | some e => .error e
  | none => .ok (analyze_attachments req.attachments o.fileTime)

def socialCall (req : EmailAnalysisRequest) (o : Oracles)
    (beh : CallBehavior) : Except String AnalyzerDict :=
  match beh.socialExn with
  | some e => .error e
  | none => .ok (detect_social_engineering req.subject req.body o.socialTime)

/-- `analyze_email_content(parsed_email)` from `backend/engine/orchestrator.py`,
as a function of the request, the oracle inputs and the behaviour of the four
analyzer calls. -/
def analyze_email_content (req : EmailAnalysisRequest) (o : Oracles)
    (beh : CallBehavior) : Except String SecurityVerdict :=
  orchestrate req o.nowIso (domainCall req o beh) (urlCall req o beh)
    (fileCall req o beh) (socialCall req o beh)

/-! ## Analyzer score bounds (claim C9 and supporting lemmas) -/

lemma clamp0100_nonneg (z : Int) : 0 ≤ clamp0100 z := by unfold clamp0100; omega

lemma clamp0100_le (z : Int) : clamp0100 z ≤ 100 := by unfold clamp0100; omega

/-- `analyze_domain` always reports a clamped trust score. -/
lemma analyze_domain_trust_bound (sender : String) (randint : Int → Int → Int)
    (execTime : Int) :
    ∃ v, (analyze_domain sender randint execTime).trust_score = some v ∧ 0 ≤ v ∧ v ≤ 100 :=
  ⟨_, rfl, clamp0100_nonneg _, clamp0100_le _⟩

lemma urlStep_fst_mono (acc : Int × List String) (url : String) :
    acc.1 ≤ (urlStep acc url).1 := by
  simp only [urlStep]
  split_ifs <;> omega

lemma foldl_urlStep_nonneg (urls : List String) (acc : Int × List String)
    (h : 0 ≤ acc.1) : 0 ≤ (urls.foldl urlStep acc).1 := by
  induction urls generalizing acc with
  | nil => simpa using h
  | cons u us ih =>
    simp only [List.foldl_cons]
    exact ih _ (le_trans h (urlStep_fst_mono acc u))

/-- `scan_urls` always reports a risk score in [0, 100]. -/
lemma scan_urls_risk_bound (body : String) (execTime : Int) :
    ∃ v, (scan_urls body execTime).risk_score = some v ∧ 0 ≤ v ∧ v ≤ 100 := by
  refine ⟨_, rfl, ?_, ?_⟩
  · have h := foldl_urlStep_nonneg (extractUrls body) (0, []) (by norm_num)
    omega
  · omega

lemma socialRaw_fst_bounds (text : String) :
    0 ≤ (socialRaw text).1 ∧ (socialRaw text).1 ≤ 185 := by
  simp only [socialRaw]
  split_ifs <;> omega

/-- `detect_social_engineering` always reports a risk score in [0, 100]. -/
lemma social_risk_bound (subject body : String) (execTime : Int) :
    ∃ v, (detect_social_engineering subject body execTime).risk_score = some v ∧
      0 ≤ v ∧ v ≤ 100 := by
  refine ⟨_, rfl, ?_, ?_⟩
  · have h := socialRaw_fst_bounds (pyLower (subject ++ " " ++ body))
    omega
  · omega

lemma attStep_bounds (acc : Int × List String) (att : Attachment)
    (h0 : 0 ≤ acc.1) (h1 : acc.1 ≤ 100) :
    0 ≤ (attStep acc att).1 ∧ (attStep acc att).1 ≤ 100 := by
  simp only [attStep]
  split_ifs <;> omega

lemma foldl_attStep_bounds (l : List Attachment) (acc : Int × List String)
    (h0 : 0 ≤ acc.1) (h1 : acc.1 ≤ 100) :
    0 ≤ (l.foldl attStep acc).1 ∧ (l.foldl attStep acc).1 ≤ 100 := by
  induction l generalizing acc with
  | nil => exact ⟨h0, h1⟩
  | cons a as ih =>
    simp only [List.foldl_cons]
    have h := attStep_bounds acc a h0 h1
    exact ih _ h.1 h.2

/-- `analyze_attachments` always reports a risk score in [0, 100]. -/
lemma attachments_risk_bound (atts : List Attachment) (execTime : Int) :
    ∃ v, (analyze_attachments atts execTime).risk_score = some v ∧ 0 ≤ v ∧ v ≤ 100 := by
  unfold analyze_attachments
  split
  · exact ⟨0, rfl, by norm_num, by norm_num⟩
  · have h := foldl_attStep_bounds atts (0, []) (by norm_num) (by norm_num)
    exact ⟨_, rfl, h.1, h.2⟩

/-- Claim C9: every outcome returned by each of the four analyzers carries a
score bounded in [0,100]: for every input (and every oracle reading),
`analyze_domain`'s `trust_score`, `scan_urls`' `risk_score`,
`detect_social_engineering`'s `risk_score`, and `analyze_attachments`'
`risk_score` are each at least 0 and at most 100. -/
theorem analyzer_scores_bounded (sender subject body : String) (atts : List Attachment)
    (randint : Int → Int → Int) (t₁ t₂ t₃ t₄ : Int) :
    (∃ v, (analyze_domain sender randint t₁).trust_score = some v ∧ 0 ≤ v ∧ v ≤ 100) ∧
    (∃ v, (scan_urls body t₂).risk_score = some v ∧ 0 ≤ v ∧ v ≤ 100) ∧
    (∃ v, (detect_social_engineering subject body t₃).risk_score = some v ∧ 0 ≤ v ∧ v ≤ 100) ∧
    (∃ v, (analyze_attachments atts t₄).risk_score = some v ∧ 0 ≤ v ∧ v ≤ 100) :=
  ⟨analyze_domain_trust_bound sender randint t₁,
   scan_urls_risk_bound body t₂,
   social_risk_bound subject body t₃,
   attachments_risk_bound atts t₄⟩

/-! ## Error analysis of the binary64 model (claim C3) -/

lemma log2f_spec (fuel : ℕ) : ∀ n : ℕ, 0 < n → n < 2 ^ fuel →
    2 ^ log2f fuel n ≤ n ∧ n < 2 ^ (log2f fuel n + 1) := by
  induction fuel with
  | zero =>
    intro n h1 h2
    simp only [pow_zero] at h2
    omega
  | succ f ih =>
    intro n h1 h2
    simp only [log2f]
    split_ifs with h
    · simp only [pow_zero, pow_one]
      omega
    · push_neg at h
      have hm1 : 0 < n / 2 := by omega
      have hm2 : n / 2 < 2 ^ f := by
        have he : (2:ℕ) ^ (f + 1) = 2 * 2 ^ f := by ring
        omega
      have hrec := ih (n / 2) hm1 hm2
      have p1 : (2:ℕ) ^ (log2f f (n / 2) + 1) = 2 * 2 ^ log2f f (n / 2) := by ring
      have p2 : (2:ℕ) ^ (log2f f (n / 2) + 1 + 1) = 2 * 2 ^ (log2f f (n / 2) + 1) := by ring
      omega

/-- Correct-rounding error bound: `flS` moves a (scaled) value `x < 2⁶⁴` by at
most half an ulp, i.e. `2⁵³·|flS x − x| ≤ x`. -/
lemma flS_err (x : ℕ) (hx : x < 18446744073709551616) :
    9007199254740992 * flS x ≤ 9007199254740992 * x + x ∧
    9007199254740992 * x ≤ 9007199254740992 * flS x + x := by
  rcases Nat.eq_zero_or_pos x with h0 | hpos
  · subst h0
    constructor <;> decide
  · have hx' : x < 2 ^ 64 := by
      have he : (2:ℕ) ^ 64 = 18446744073709551616 := by norm_num
      omega
    have hl := log2f_spec 64 x hpos hx'
    simp only [flS]
    generalize hldef : log2f 64 x = l at hl ⊢
    by_cases hc : l ≤ 52
    · have h0 : l - 52 = 0 := by omega
      rw [h0, pow_zero]
      simp only [Nat.div_one, Nat.mod_one, Nat.mul_zero, mul_one]
      norm_num
    · push_neg at hc
      have hkey : 4503599627370496 * 2 ^ (l - 52) = 2 ^ l := by
        have h52 : (4503599627370496:ℕ) = 2 ^ 52 := by norm_num
        rw [h52, ← pow_add]
        congr 1
        omega
      have hsx : 4503599627370496 * 2 ^ (l - 52) ≤ x := by
        rw [hkey]
        exact hl.1
      have hs0 : 0 < 2 ^ (l - 52) := Nat.pos_pow_of_pos _ (by norm_num)
      have hdm : 2 ^ (l - 52) * (x / 2 ^ (l - 52)) + x % 2 ^ (l - 52) = x :=
        Nat.div_add_mod x _
      have hmod : x % 2 ^ (l - 52) < 2 ^ (l - 52) := Nat.mod_lt _ hs0
      rw [Nat.mul_comm (2 ^ (l - 52)) (x / 2 ^ (l - 52))] at hdm
      generalize hsd : (2:ℕ) ^ (l - 52) = s at *
      generalize hqd : x / s = q at *
      generalize hrd : x % s = r at *
      have hexp : (q + 1) * s = q * s + s := by ring
      rw [hexp]
      generalize hA : q * s = A at *
      split_ifs <;> omega

/-- Scaled weights of the doubles `0.35`, `0.30`, `0.20`, `0.15` against the
exact rationals: `100·w − w′·2⁵⁵` is −80, −40, +40, −20 respectively. -/
lemma weight_offsets :
    100 * w35S + 80 = 35 * 2 ^ 55 ∧ 100 * w30S + 40 = 30 * 2 ^ 55 ∧
    100 * w20S = 20 * 2 ^ 55 + 40 ∧ 100 * w15S + 20 = 15 * 2 ^ 55 := by
  refine ⟨?_, ?_, ?_, ?_⟩ <;> norm_num [w35S, w30S, w20S, w15S]

/-- Accumulated rounding error of the float expression: the scaled float value
`weightedScaled` stays within `160000·2⁻⁵⁵` of the exact weighted sum. -/
lemma weighted_close (a d u s : ℕ) (ha : a ≤ 100) (hd : d ≤ 100)
    (hu : u ≤ 100) (hs : s ≤ 100) :
    100 * weightedScaled a d u s ≤ (35 * a + 30 * d + 20 * u + 15 * s) * 2 ^ 55 + 160000 ∧
    (35 * a + 30 * d + 20 * u + 15 * s) * 2 ^ 55 ≤ 100 * weightedScaled a d u s + 160000 := by
  have hw := weight_offsets
  have h55 : (2:ℕ) ^ 55 = 36028797018963968 := by norm_num
  simp only [weightedScaled, w35S, w30S, w20S, w15S] at *
  have e₁ := flS_err (a * 12610078956637388) (by omega)
  generalize ht₁ : flS (a * 12610078956637388) = t₁ at *
  have e₂ := flS_err (d * 10808639105689190) (by omega)
  generalize ht₂ : flS (d * 10808639105689190) = t₂ at *
  have e₃ := flS_err (u * 7205759403792794) (by omega)
  generalize ht₃ : flS (u * 7205759403792794) = t₃ at *
  have e₄ := flS_err (s * 5404319552844595) (by omega)
  generalize ht₄ : flS (s * 5404319552844595) = t₄ at *
  have e₅ := flS_err (t₁ + t₂) (by omega)
  generalize ht₅ : flS (t₁ + t₂) = s₂ at *
  have e₆ := flS_err (s₂ + t₃) (by omega)
  generalize ht₆ : flS (s₂ + t₃) = s₃ at *
  have e₇ := flS_err (s₃ + t₄) (by omega)
  generalize ht₇ : flS (s₃ + t₄) = T at *
  omega

/-- `Modelled from the spec:` the exact numerator
`100·(0.35·attachment + 0.30·domain + 0.20·url + 0.15·social)` of the
aggregation formula of §4.2 (on pydantic-validated scores, so `toNat` is
exact). -/
def specWeightedNumerator (sc : AggregatedScores) : ℕ :=
  35 * sc.attachment_risk.toNat + 30 * sc.domain_risk.toNat +
  20 * sc.url_risk.toNat + 15 * sc.social_engineering_risk.toNat

/-- Claim C3 counterexample: on `AggregatedScores` with `url_risk = 1`,
`social_engineering_risk = 12` (others 0), the exact weighted sum is exactly 2
(`0.20·1 + 0.15·12 = 2`), but float evaluation yields `0.2 + 1.8 =
1.9999999999999998`, so `calculate_final_risk_score` returns 1, not
`floor(…) = 2`. -/
theorem calculate_final_risk_cex :
    calculate_final_risk_score ⟨1, 0, 0, 12⟩ = 1 ∧
    specWeightedNumerator ⟨1, 0, 0, 12⟩ / 100 = 2 ∧
    calculate_final_risk_score ⟨1, 0, 0, 12⟩ ≠
      (specWeightedNumerator ⟨1, 0, 0, 12⟩ / 100 : ℕ) := by
  refine ⟨by decide, by decide, by decide⟩

/-- Claim C3 (amended): for every `AggregatedScores` whose four fields lie in
[0,100], `calculate_final_risk_score` returns the floor of the IEEE-754
binary64 evaluation of `0.35·attachment + 0.30·domain + 0.20·url +
0.15·social`; this equals `floor` of the exact weighted sum whenever that sum
is not an integer, and is that floor or one less when the sum is an integer
(float rounding can land just below an integer); the result lies in [0,100]
and the defensive clamp to at most 100 never changes it. -/
theorem calculate_final_risk_score_spec (sc : AggregatedScores)
    (h : 0 ≤ sc.url_risk ∧ sc.url_risk ≤ 100 ∧ 0 ≤ sc.domain_risk ∧ sc.domain_risk ≤ 100 ∧
         0 ≤ sc.attachment_risk ∧ sc.attachment_risk ≤ 100 ∧
         0 ≤ sc.social_engineering_risk ∧ sc.social_engineering_risk ≤ 100) :
    (¬ (100 ∣ specWeightedNumerator sc) →
      calculate_final_risk_score sc = (specWeightedNumerator sc / 100 : ℕ)) ∧
    (100 ∣ specWeightedNumerator sc →
      calculate_final_risk_score sc = (specWeightedNumerator sc / 100 : ℕ) ∨
      calculate_final_risk_score sc + 1 = (specWeightedNumerator sc / 100 : ℕ)) ∧
    0 ≤ calculate_final_risk_score sc ∧ calculate_final_risk_score sc ≤ 100 ∧
    calculate_final_risk_score sc =
      (weightedScaled sc.attachment_risk.toNat sc.domain_risk.toNat sc.url_risk.toNat
        sc.social_engineering_risk.toNat / 2 ^ 55 : ℕ) := by
  obtain ⟨h1, h2, h3, h4, h5, h6, h7, h8⟩ := h
  have ha : sc.attachment_risk.toNat ≤ 100 := by omega
  have hd : sc.domain_risk.toNat ≤ 100 := by omega
  have hu : sc.url_risk.toNat ≤ 100 := by omega
  have hs : sc.social_engineering_risk.toNat ≤ 100 := by omega
  have hw := weighted_close sc.attachment_risk.toNat sc.domain_risk.toNat
    sc.url_risk.toNat sc.social_engineering_risk.toNat ha hd hu hs
  have h55 : (2:ℕ) ^ 55 = 36028797018963968 := by norm_num
  simp only [calculate_final_risk_score, specWeightedNumerator, h55] at *
  generalize hW : weightedScaled sc.attachment_risk.toNat sc.domain_risk.toNat
    sc.url_risk.toNat sc.social_engineering_risk.toNat = W at *
  omega

/-- Witness for `calculate_final_risk_score_spec` at the concrete scores
`url=10, domain=20, attachment=30, social=40` (exact sum 24.5, floor 24). -/
theorem calculate_final_risk_score_spec_witness :
    calculate_final_risk_score ⟨10, 20, 30, 40⟩ = (specWeightedNumerator ⟨10, 20, 30, 40⟩ / 100 : ℕ) := by
  have h := calculate_final_risk_score_spec ⟨10, 20, 30, 40⟩ (by norm_num)
  exact h.1 (by decide)

/-! ## Classifier tiers (claims C4 and C10) -/

/-- Claim C4: `classify_threat` is total on integer scores and its three tiers
partition [0,100] with no gap or overlap at the boundaries 30/31 and 60/61:
every score ≥ 61 yields `(MALICIOUS, "block_sender")`, every score in
[31, 60] yields `(SUSPICIOUS, "warn_user")`, and every score ≤ 30 yields
`(SAFE, "allow")`. -/
theorem classify_threat_tiers (s : Int) :
    (61 ≤ s → classify_threat s = (.MALICIOUS, "block_sender")) ∧
    (31 ≤ s ∧ s ≤ 60 → classify_threat s = (.SUSPICIOUS, "warn_user")) ∧
    (s ≤ 30 → classify_threat s = (.SAFE, "allow")) := by
  unfold classify_threat
  refine ⟨?_, ?_, ?_⟩ <;> intro h <;> split_ifs <;> first | rfl | omega

/-- Witness for `classify_threat_tiers` at the concrete scores 75, 45, 15. -/
theorem classify_threat_tiers_witness :
    classify_threat 75 = (.MALICIOUS, "block_sender") ∧
    classify_threat 45 = (.SUSPICIOUS, "warn_user") ∧
    classify_threat 15 = (.SAFE, "allow") :=
  ⟨(classify_threat_tiers 75).1 (by norm_num),
   (classify_threat_tiers 45).2.1 (by norm_num),
   (classify_threat_tiers 15).2.2 (by norm_num)⟩

/-- Claim C10: `classify_threat` is total on all integers, including those
outside [0,100]: every integer score below 31 — in particular every negative
score — yields `(SAFE, "allow")`, and every integer score of at least 61 — in
particular every score above 100 — yields `(MALICIOUS, "block_sender")`. -/
theorem classify_threat_total_all_ints (s : Int) :
    (s < 0 → classify_threat s = (.SAFE, "allow")) ∧
    (s < 31 → classify_threat s = (.SAFE, "allow")) ∧
    (100 < s → classify_threat s = (.MALICIOUS, "block_sender")) ∧
    (61 ≤ s → classify_threat s = (.MALICIOUS, "block_sender")) := by
  unfold classify_threat
  refine ⟨?_, ?_, ?_, ?_⟩ <;> intro h <;> split_ifs <;> first | rfl | omega

/-- Witness for `classify_threat_total_all_ints` at the out-of-range scores
−5 and 150. -/
theorem classify_threat_total_all_ints_witness :
    classify_threat (-5) = (.SAFE, "allow") ∧
    classify_threat 150 = (.MALICIOUS, "block_sender") :=
  ⟨(classify_threat_total_all_ints (-5)).1 (by norm_num),
   (classify_threat_total_all_ints 150).2.2.1 (by norm_num)⟩

/-! ## Reasoning narrative (claim C7) -/

lemma ne_of_take2 (p q m : String) (h2 : 2 ≤ p.data.length)
    (hne : p.data.take 2 ≠ q.data.take 2) : p ++ m ≠ q := by
  intro h
  apply hne
  have hd : p.data ++ m.data = q.data := congrArg String.data h
  calc p.data.take 2 = (p.data ++ m.data).take 2 :=
        (List.take_append_of_le_length h2).symm
    _ = q.data.take 2 := by rw [hd]

lemma genReasoning_ne (sc : AggregatedScores) (cls : ThreatClassification)
    (hp : reasoningParts sc ≠ []) : genReasoning sc cls ≠ noConcernsMsg := by
  unfold genReasoning
  rw [if_neg (by simpa using hp)]
  split_ifs with h1 h2 h3
  · exact ne_of_take2 preMal noConcernsMsg _ (by decide) (by decide)
  · exact ne_of_take2 prePhish noConcernsMsg _ (by decide) (by decide)
  · exact ne_of_take2 preGeneric noConcernsMsg _ (by decide) (by decide)
  · exact ne_of_take2 preSuspicious noConcernsMsg _ (by decide) (by decide)

lemma reasoningParts_empty_iff (sc : AggregatedScores) :
    reasoningParts sc = [] ↔
      sc.attachment_risk ≤ 60 ∧ sc.domain_risk ≤ 60 ∧ sc.url_risk ≤ 60 ∧
      sc.social_engineering_risk ≤ 60 := by
  unfold reasoningParts
  split_ifs <;> simp <;> omega

/-- Claim C7: the reasoning narrative is a deterministic function of the
aggregated scores and the classification: it is the fixed "no significant
security concerns" message iff all four component risks are at most 60; each
component strictly above 60 appends its clause (attachment/malware,
domain/phishing, url/credential-theft, social-engineering/manipulation); when
at least one clause triggers and the classification is MALICIOUS, the prefix
uses malware framing whenever attachment risk exceeds 60 (attachment is
checked first, so malware wins over phishing) and phishing framing when only
the domain signal exceeds 60; a SUSPICIOUS classification receives the caution
prefix. -/
theorem reasoning_narrative_spec (sc : AggregatedScores) (cls : ThreatClassification) :
    (genReasoning sc cls = noConcernsMsg ↔
      sc.attachment_risk ≤ 60 ∧ sc.domain_risk ≤ 60 ∧ sc.url_risk ≤ 60 ∧
      sc.social_engineering_risk ≤ 60) ∧
    (60 < sc.attachment_risk → attClause sc ∈ reasoningParts sc) ∧
    (60 < sc.domain_risk → domClause sc ∈ reasoningParts sc) ∧
    (60 < sc.url_risk → urlClause ∈ reasoningParts sc) ∧
    (60 < sc.social_engineering_risk → socClause ∈ reasoningParts sc) ∧
    (reasoningParts sc ≠ [] → cls = .MALICIOUS → 60 < sc.attachment_risk →
      ∃ rest, genReasoning sc cls = preMal ++ rest) ∧
    (reasoningParts sc ≠ [] → cls = .MALICIOUS → sc.attachment_risk ≤ 60 →
      60 < sc.domain_risk → sc.url_risk ≤ 60 → sc.social_engineering_risk ≤ 60 →
      ∃ rest, genReasoning sc cls = prePhish ++ rest) ∧
    (reasoningParts sc ≠ [] → cls = .SUSPICIOUS →
      ∃ rest, genReasoning sc cls = preSuspicious ++ rest) := by
  refine ⟨⟨?_, ?_⟩, ?_, ?_, ?_, ?_, ?_, ?_, ?_⟩
  · intro h
    rcases em (reasoningParts sc = []) with hp | hp
    · exact (reasoningParts_empty_iff sc).mp hp
    · exact absurd h (genReasoning_ne sc cls hp)
  · intro h
    have hp : reasoningParts sc = [] := (reasoningParts_empty_iff sc).mpr h
    unfold genReasoning
    rw [if_pos (by simp [hp])]
  · intro h
    unfold reasoningParts
    rw [if_pos h]
    simp
  · intro h
    unfold reasoningParts
    rw [if_pos h]
    simp
  · intro h
    unfold reasoningParts
    rw [if_pos h]
    simp
  · intro h
    unfold reasoningParts
    rw [if_pos h]
    simp
  · intro hne hcls hatt
    subst hcls
    unfold genReasoning
    rw [if_neg (by simpa using hne), if_pos rfl,
      if_pos (by unfold threatLevel; rw [if_pos hatt])]
    exact ⟨_, rfl⟩
  · intro hne hcls hatt hdom hurl hsoc
    subst hcls
    have htl : threatLevel sc = "phishing" := by
      unfold threatLevel
      rw [if_neg (by omega), if_pos hdom]
    unfold genReasoning
    rw [if_neg (by simpa using hne), if_pos rfl, if_neg (by rw [htl]; decide),
      if_pos (by rw [htl])]
    exact ⟨_, rfl⟩
  · intro hne hcls
    subst hcls
    unfold genReasoning
    rw [if_neg (by simpa using hne), if_neg (by decide)]
    exact ⟨_, rfl⟩

/-- Witness for `reasoning_narrative_spec`: the fixed message at all-zero
scores; malware framing at `attachment=90` (with domain also high); phishing
framing at `domain=70` only; the caution prefix for SUSPICIOUS. -/
theorem reasoning_narrative_spec_witness :
    genReasoning ⟨0, 0, 0, 0⟩ .SAFE = noConcernsMsg ∧
    (∃ rest, genReasoning ⟨70, 70, 90, 70⟩ .MALICIOUS = preMal ++ rest) ∧
    (∃ rest, genReasoning ⟨0, 70, 0, 0⟩ .MALICIOUS = prePhish ++ rest) ∧
    (∃ rest, genReasoning ⟨0, 70, 0, 0⟩ .SUSPICIOUS = preSuspicious ++ rest) :=
  ⟨(reasoning_narrative_spec ⟨0, 0, 0, 0⟩ .SAFE).1.mpr (by norm_num),
   (reasoning_narrative_spec ⟨70, 70, 90, 70⟩ .MALICIOUS).2.2.2.2.2.1
     (by decide) rfl (by norm_num),
   (reasoning_narrative_spec ⟨0, 70, 0, 0⟩ .MALICIOUS).2.2.2.2.2.2.1
     (by decide) rfl (by norm_num) (by norm_num) (by norm_num) (by norm_num),
   (reasoning_narrative_spec ⟨0, 70, 0, 0⟩ .SUSPICIOUS).2.2.2.2.2.2.2
     (by decide) rfl⟩

/-! ## Orchestrator reduction (infrastructure for claims C1, C2, C5, C6) -/

/-- The verdict `orchestrate` assembles on its non-raising path, as a pure
function of the four resolved dictionaries and the filename list. -/
def resolvedVerdict (req : EmailAnalysisRequest) (nowIso : String)
    (dR uR fR sR : AnalyzerDict) (names : List String) : SecurityVerdict :=
  let scores : AggregatedScores :=
    ⟨uR.risk_score.getD 0, 100 - dR.trust_score.getD 100,
     fR.risk_score.getD 0, sR.risk_score.getD 0⟩
  let final_score := calculate_final_risk_score scores
  { email_metadata := [("sender", req.sender_email), ("subject", req.subject),
      ("analyzed_at", nowIso)],
    tool_execution_trace := [domainTraceEntry req nowIso dR, urlTraceEntry req nowIso uR] ++
      (if req.attachments.isEmpty then [] else [fileTraceEntry nowIso fR names]) ++
      [socialTraceEntry req nowIso sR],
    aggregated_scores := scores,
    final_risk_score := final_score,
    classification := (classify_threat final_score).1,
    recommended_action := (classify_threat final_score).2,
    reasoning_summary := genReasoning scores (classify_threat final_score).1,
    confidence_percentage := 92 }

lemma filenamesOf_ok (atts : List Attachment)
    (h : ∀ a ∈ atts, (attGet a "filename").isSome) :
    ∃ names, filenamesOf atts = .ok names := by
  induction atts with
  | nil => exact ⟨[], rfl⟩
  | cons a rest ih =>
    obtain ⟨v, hv⟩ := Option.isSome_iff_exists.mp (h a (by simp))
    obtain ⟨ns, hns⟩ := ih (fun b hb => h b (by simp [hb]))
    exact ⟨v :: ns, by simp [filenamesOf, hv, hns]⟩

lemma isEmpty_false_of_ne {α : Type} (l : List α) (h : l ≠ []) : l.isEmpty = false := by
  cases l with
  | nil => exact absurd rfl h
  | cons a as => rfl

/-- `calculate_final_risk_score` always lands in [0, 100] (the lower end from
`ℕ` division, the upper end from the clamp). -/
lemma calculate_final_risk_range (sc : AggregatedScores) :
    0 ≤ calculate_final_risk_score sc ∧ calculate_final_risk_score sc ≤ 100 := by
  unfold calculate_final_risk_score
  constructor <;> omega

/-- On the non-raising path — filenames resolve and the four resolved component
scores are in range — `orchestrate` returns exactly `resolvedVerdict`. -/
lemma orchestrate_eq (req : EmailAnalysisRequest) (nowIso : String)
    (rd ru rf rs : Except String AnalyzerDict) (names : List String)
    (hnames : filenamesOf req.attachments = .ok names)
    (hd : 0 ≤ (resolveResult domainFallback rd).trust_score.getD 100 ∧
          (resolveResult domainFallback rd).trust_score.getD 100 ≤ 100)
    (hu : 0 ≤ (resolveResult urlFallback ru).risk_score.getD 0 ∧
          (resolveResult urlFallback ru).risk_score.getD 0 ≤ 100)
    (hf : 0 ≤ (resolveResult fileFallback rf).risk_score.getD 0 ∧
          (resolveResult fileFallback rf).risk_score.getD 0 ≤ 100)
    (hs : 0 ≤ (resolveResult socialFallback rs).risk_score.getD 0 ∧
          (resolveResult socialFallback rs).risk_score.getD 0 ≤ 100) :
    orchestrate req nowIso rd ru rf rs =
      .ok (resolvedVerdict req nowIso (resolveResult domainFallback rd)
        (resolveResult urlFallback ru) (resolveResult fileFallback rf)
        (resolveResult socialFallback rs) names) := by
  have hrange := calculate_final_risk_range
    ⟨(resolveResult urlFallback ru).risk_score.getD 0,
     100 - (resolveResult domainFallback rd).trust_score.getD 100,
     (resolveResult fileFallback rf).risk_score.getD 0,
     (resolveResult socialFallback rs).risk_score.getD 0⟩
  simp only [orchestrate, resolvedVerdict]
  by_cases hemp : req.attachments.isEmpty = true
  · rw [if_pos hemp]
    simp only [hemp, if_true]
    unfold mkAggregatedScores
    rw [if_pos (by omega)]
    unfold mkSecurityVerdict
    dsimp only
    rw [if_pos (by refine ⟨hrange.1, hrange.2, by norm_num, by norm_num⟩)]
  · rw [if_neg hemp, hnames]
    simp only [hemp, if_false]
    unfold mkAggregatedScores
    rw [if_pos (by omega)]
    unfold mkSecurityVerdict
    dsimp only
    rw [if_pos (by refine ⟨hrange.1, hrange.2, by norm_num, by norm_num⟩)]
    simp

lemma resolved_domain_bound (req : EmailAnalysisRequest) (o : Oracles) (beh : CallBehavior) :
    0 ≤ (resolveResult domainFallback (domainCall req o beh)).trust_score.getD 100 ∧
    (resolveResult domainFallback (domainCall req o beh)).trust_score.getD 100 ≤ 100 := by
  cases hb : beh.domainExn with
  | some e => simp [domainCall, hb, resolveResult, domainFallback]
  | none =>
    obtain ⟨v, hv, h0, h1⟩ :=
      analyze_domain_trust_bound req.sender_email o.randint o.domainTime
    simp [domainCall, hb, resolveResult, hv]
    omega

lemma resolved_url_bound (req : EmailAnalysisRequest) (o : Oracles) (beh : CallBehavior) :
    0 ≤ (resolveResult urlFallback (urlCall req o beh)).risk_score.getD 0 ∧
    (resolveResult urlFallback (urlCall req o beh)).risk_score.getD 0 ≤ 100 := by
  cases hb : beh.urlExn with
  | some e => simp [urlCall, hb, resolveResult, urlFallback]
  | none =>
    obtain ⟨v, hv, h0, h1⟩ := scan_urls_risk_bound req.body o.urlTime
    simp [urlCall, hb, resolveResult, hv]
    omega

lemma resolved_file_bound (req : EmailAnalysisRequest) (o : Oracles) (beh : CallBehavior) :
    0 ≤ (resolveResult fileFallback (fileCall req o beh)).risk_score.getD 0 ∧
    (resolveResult fileFallback (fileCall req o beh)).risk_score.getD 0 ≤ 100 := by
  cases hb : beh.fileExn with
  | some e => simp [fileCall, hb, resolveResult, fileFallback]
  | none =>
    obtain ⟨v, hv, h0, h1⟩ := attachments_risk_bound req.attachments o.fileTime
    simp [fileCall, hb, resolveResult, hv]
    omega

lemma resolved_social_bound (req : EmailAnalysisRequest) (o : Oracles) (beh : CallBehavior) :
    0 ≤ (resolveResult socialFallback (socialCall req o beh)).risk_score.getD 0 ∧
    (resolveResult socialFallback (socialCall req o beh)).risk_score.getD 0 ≤ 100 := by
  cases hb : beh.socialExn with
  | some e => simp [socialCall, hb, resolveResult, socialFallback]
  | none =>
    obtain ⟨v, hv, h0, h1⟩ :=
      social_risk_bound req.subject req.body o.socialTime
    simp [socialCall, hb, resolveResult, hv]
    omega

/-- Packaged form: `analyze_email_content` returns exactly `resolvedVerdict`
whenever every attachment dictionary has a `'filename'` key. -/
lemma analyze_email_content_eq (req : EmailAnalysisRequest) (o : Oracles)
    (beh : CallBehavior) (names : List String)
    (hnames : filenamesOf req.attachments = .ok names) :
    analyze_email_content req o beh =
      .ok (resolvedVerdict req o.nowIso
        (resolveResult domainFallback (domainCall req o beh))
        (resolveResult urlFallback (urlCall req o beh))
        (resolveResult fileFallback (fileCall req o beh))
        (resolveResult socialFallback (socialCall req o beh)) names) := by
  unfold analyze_email_content
  exact orchestrate_eq req o.nowIso _ _ _ _ names hnames
    (resolved_domain_bound req o beh) (resolved_url_bound req o beh)
    (resolved_file_bound req o beh) (resolved_social_bound req o beh)

/-! ## Claims C1, C2, C5, C6, C8 -/

/-- An attachment dictionary without a `'filename'` key (pydantic accepts it:
`attachments : List[Dict[str, str]]` imposes no key schema). -/
def noNameAtt : Attachment := [("content", "zzz")]

/-- An attachment dictionary with a `'filename'` key. -/
def goodAtt : Attachment := [("filename", "report.pdf")]

/-- A structurally valid request whose attachment dict lacks `'filename'`. -/
def keyErrReq : EmailAnalysisRequest :=
  { sender_email := "attacker@evil.com", subject := "hello", body := "hi",
    attachments := [noNameAtt] }

/-- A well-formed request with one named attachment. -/
def wReq : EmailAnalysisRequest :=
  { sender_email := "alice@gmail.com", subject := "Hi", body := "hello there",
    attachments := [goodAtt] }

/-- Fixed oracle readings for concrete runs. -/
def stubOracles : Oracles :=
  { randint := fun lo _ => lo, nowIso := "2026-01-01T00:00:00",
    domainTime := 1, urlTime := 1, fileTime := 1, socialTime := 1 }

/-- Claim C1 counterexample: on a pydantic-valid request whose attachment
dictionary has no `'filename'` key, `analyze_email_content` raises `KeyError`
from `[a['filename'] for a in parsed_email.attachments]` (orchestrator line
108) even though all four analyzer calls resolve to their result dictionaries
— so an exception does propagate to the caller. -/
theorem analyze_email_keyerror_cex :
    analyze_email_content keyErrReq stubOracles {} = .error "KeyError: 'filename'" := rfl

/-- Claim C1 (amended): for every structurally valid request whose attachment
dictionaries each contain a `'filename'` key, and for every behaviour of the
four analyzer calls (each resolving to its result dictionary or raising),
`analyze_email_content` returns a `SecurityVerdict` and propagates no
exception: analyzer failures are absorbed into fallback outcomes. -/
theorem analyze_email_total (req : EmailAnalysisRequest) (o : Oracles)
    (beh : CallBehavior)
    (hatt : ∀ a ∈ req.attachments, (attGet a "filename").isSome) :
    ∃ v, analyze_email_content req o beh = .ok v := by
  obtain ⟨names, hnames⟩ := filenamesOf_ok req.attachments hatt
  exact ⟨_, analyze_email_content_eq req o beh names hnames⟩

/-- Witness for `analyze_email_total` at a concrete request, with all four
analyzers failing. -/
theorem analyze_email_total_witness :
    ∃ v, analyze_email_content wReq stubOracles
      { domainExn := some "boom", urlExn := some "boom",
        fileExn := some "boom", socialExn := some "boom" } = .ok v :=
  analyze_email_total wReq stubOracles
    { domainExn := some "boom", urlExn := some "boom",
      fileExn := some "boom", socialExn := some "boom" } (by decide)

/-- Claim C2: if exactly one of the four analyzers fails, the verdict carries
the same component scores for the other three analyzers as the all-success
verdict; the failed analyzer contributes its polarity-correct neutral score
(domain falls back to trust 100, hence `domain_risk` 0; url, attachment and
social fall back to risk 0); and the failed analyzer's trace entry's
`output_summary` is "Analysis failed". -/
theorem failure_isolation (req : EmailAnalysisRequest) (o : Oracles) (e : String)
    (hatt : ∀ a ∈ req.attachments, (attGet a "filename").isSome) :
    ∃ v₀ v₁ v₂ v₃ v₄,
      analyze_email_content req o {} = .ok v₀ ∧
      analyze_email_content req o { domainExn := some e } = .ok v₁ ∧
      analyze_email_content req o { urlExn := some e } = .ok v₂ ∧
      analyze_email_content req o { fileExn := some e } = .ok v₃ ∧
      analyze_email_content req o { socialExn := some e } = .ok v₄ ∧
      (v₁.aggregated_scores.url_risk = v₀.aggregated_scores.url_risk ∧
       v₁.aggregated_scores.attachment_risk = v₀.aggregated_scores.attachment_risk ∧
       v₁.aggregated_scores.social_engineering_risk =
         v₀.aggregated_scores.social_engineering_risk ∧
       v₁.aggregated_scores.domain_risk = 0 ∧
       (v₁.tool_execution_trace[0]?).map (fun tr => tr.output_summary) =
         some "Analysis failed") ∧
      (v₂.aggregated_scores.domain_risk = v₀.aggregated_scores.domain_risk ∧
       v₂.aggregated_scores.attachment_risk = v₀.aggregated_scores.attachment_risk ∧
       v₂.aggregated_scores.social_engineering_risk =
         v₀.aggregated_scores.social_engineering_risk ∧
       v₂.aggregated_scores.url_risk = 0 ∧
       (v₂.tool_execution_trace[1]?).map (fun tr => tr.output_summary) =
         some "Analysis failed") ∧
      (v₃.aggregated_scores.url_risk = v₀.aggregated_scores.url_risk ∧
       v₃.aggregated_scores.domain_risk = v₀.aggregated_scores.domain_risk ∧
       v₃.aggregated_scores.social_engineering_risk =
         v₀.aggregated_scores.social_engineering_risk ∧
       v₃.aggregated_scores.attachment_risk = 0 ∧
       (req.attachments ≠ [] →
         (v₃.tool_execution_trace[2]?).map (fun tr => tr.output_summary) =
           some "Analysis failed")) ∧
      (v₄.aggregated_scores.url_risk = v₀.aggregated_scores.url_risk ∧
       v₄.aggregated_scores.domain_risk = v₀.aggregated_scores.domain_risk ∧
       v₄.aggregated_scores.attachment_risk = v₀.aggregated_scores.attachment_risk ∧
       v₄.aggregated_scores.social_engineering_risk = 0 ∧
       (v₄.tool_execution_trace.getLast?).map (fun tr => tr.output_summary) =
         some "Analysis failed") := by
  obtain ⟨names, hnames⟩ := filenamesOf_ok req.attachments hatt
  refine ⟨_, _, _, _, _,
    analyze_email_content_eq req o {} names hnames,
    analyze_email_content_eq req o { domainExn := some e } names hnames,
    analyze_email_content_eq req o { urlExn := some e } names hnames,
    analyze_email_content_eq req o { fileExn := some e } names hnames,
    analyze_email_content_eq req o { socialExn := some e } names hnames,
    ⟨rfl, rfl, rfl, rfl, ?_⟩, ⟨rfl, rfl, rfl, rfl, ?_⟩,
    ⟨rfl, rfl, rfl, rfl, ?_⟩, ⟨rfl, rfl, rfl, rfl, ?_⟩⟩
  · simp [resolvedVerdict, domainTraceEntry, domainCall, resolveResult, domainFallback]
  · simp [resolvedVerdict, urlTraceEntry, urlCall, resolveResult, urlFallback]
  · intro hne
    have hf := isEmpty_false_of_ne req.attachments hne
    simp [resolvedVerdict, fileTraceEntry, fileCall, resolveResult, fileFallback, hf]
  · rw [show (resolvedVerdict req o.nowIso
      (resolveResult domainFallback (domainCall req o { socialExn := some e }))
      (resolveResult urlFallback (urlCall req o { socialExn := some e }))
      (resolveResult fileFallback (fileCall req o { socialExn := some e }))
      (resolveResult socialFallback (socialCall req o { socialExn := some e }))
      names).tool_execution_trace =
        [domainTraceEntry req o.nowIso
          (resolveResult domainFallback (domainCall req o { socialExn := some e })),
         urlTraceEntry req o.nowIso
          (resolveResult urlFallback (urlCall req o { socialExn := some e }))] ++
        (if req.attachments.isEmpty then [] else
          [fileTraceEntry o.nowIso
            (resolveResult fileFallback (fileCall req o { socialExn := some e })) names]) ++
        [socialTraceEntry req o.nowIso
          (resolveResult socialFallback (socialCall req o { socialExn := some e }))]
      from rfl]
    rw [List.getLast?_append] <;>
      simp [socialTraceEntry, socialCall, resolveResult, socialFallback]

/-- Witness for `failure_isolation` at a concrete request: a failed domain
analyzer yields `domain_risk = 0` while the url component is unchanged. -/
theorem failure_isolation_witness :
    ∃ v₀ v₁, analyze_email_content wReq stubOracles {} = .ok v₀ ∧
      analyze_email_content wReq stubOracles { domainExn := some "boom" } = .ok v₁ ∧
      v₁.aggregated_scores.domain_risk = 0 ∧
      v₁.aggregated_scores.url_risk = v₀.aggregated_scores.url_risk := by
  obtain ⟨v₀, v₁, v₂, v₃, v₄, h₀, h₁, _, _, _, hd, _⟩ :=
    failure_isolation wReq stubOracles "boom" (by decide)
  exact ⟨v₀, v₁, h₀, h₁, hd.2.2.2.1, hd.1⟩

/-- Claim C5: in every verdict produced, the aggregated `domain_risk` is 100
minus the `trust_score` reported by the domain analyzer (0 on fallback, since
fallback trust is 100), while `url_risk`, `attachment_risk` and
`social_engineering_risk` are taken unchanged from their analyzers'
`risk_score` fields. -/
theorem aggregation_polarity (req : EmailAnalysisRequest) (o : Oracles)
    (beh : CallBehavior)
    (hatt : ∀ a ∈ req.attachments, (attGet a "filename").isSome) :
    ∃ v, analyze_email_content req o beh = .ok v ∧
      (beh.domainExn = none →
        ∃ t, (analyze_domain req.sender_email o.randint o.domainTime).trust_score = some t ∧
          v.aggregated_scores.domain_risk = 100 - t) ∧
      (∀ e, beh.domainExn = some e → v.aggregated_scores.domain_risk = 0) ∧
      (beh.urlExn = none →
        ∃ r, (scan_urls req.body o.urlTime).risk_score = some r ∧
          v.aggregated_scores.url_risk = r) ∧
      (beh.fileExn = none →
        ∃ r, (analyze_attachments req.attachments o.fileTime).risk_score = some r ∧
          v.aggregated_scores.attachment_risk = r) ∧
      (beh.socialExn = none →
        ∃ r, (detect_social_engineering req.subject req.body o.socialTime).risk_score = some r ∧
          v.aggregated_scores.social_engineering_risk = r) := by
  obtain ⟨names, hnames⟩ := filenamesOf_ok req.attachments hatt
  refine ⟨_, analyze_email_content_eq req o beh names hnames, ?_, ?_, ?_, ?_, ?_⟩
  · intro hb
    obtain ⟨t, ht, _, _⟩ := analyze_domain_trust_bound req.sender_email o.randint o.domainTime
    exact ⟨t, ht, by simp [resolvedVerdict, domainCall, hb, resolveResult, ht]⟩
  · intro e hb
    simp [resolvedVerdict, domainCall, hb, resolveResult, domainFallback]
  · intro hb
    obtain ⟨r, hr, _, _⟩ := scan_urls_risk_bound req.body o.urlTime
    exact ⟨r, hr, by simp [resolvedVerdict, urlCall, hb, resolveResult, hr]⟩
  · intro hb
    obtain ⟨r, hr, _, _⟩ := attachments_risk_bound req.attachments o.fileTime
    exact ⟨r, hr, by simp [resolvedVerdict, fileCall, hb, resolveResult, hr]⟩
  · intro hb
    obtain ⟨r, hr, _, _⟩ := social_risk_bound req.subject req.body o.socialTime
    exact ⟨r, hr, by simp [resolvedVerdict, socialCall, hb, resolveResult, hr]⟩

/-- Witness for `aggregation_polarity` at a concrete request. -/
theorem aggregation_polarity_witness :
    ∃ v t, analyze_email_content wReq stubOracles {} = .ok v ∧
      (analyze_domain wReq.sender_email stubOracles.randint
        stubOracles.domainTime).trust_score = some t ∧
      v.aggregated_scores.domain_risk = 100 - t := by
  obtain ⟨v, hv, hdom, _, _, _, _⟩ :=
    aggregation_polarity wReq stubOracles {} (by decide)
  obtain ⟨t, ht, hdr⟩ := hdom rfl
  exact ⟨v, t, hv, ht, hdr⟩

/-- Claim C6: the verdict's `tool_execution_trace` lists its entries in fixed
declaration order — `check_domain_reputation`, `scan_urls`,
`analyze_attachments` (present iff the attachment list is non-empty),
`detect_social_engineering` — and each entry carries its analyzer's own
(resolved) `output_summary` and `execution_time_ms`, whether the analyzer
succeeded or was fallback-substituted.  (The model's gather is a join barrier:
the trace is assembled from statically assigned slots, so completion order
cannot influence it.) -/
theorem trace_fixed_order (req : EmailAnalysisRequest) (o : Oracles)
    (beh : CallBehavior)
    (hatt : ∀ a ∈ req.attachments, (attGet a "filename").isSome) :
    ∃ v, analyze_email_content req o beh = .ok v ∧
      v.tool_execution_trace.map (fun tr => tr.tool_name) =
        ["check_domain_reputation", "scan_urls"] ++
        (if req.attachments.isEmpty then [] else ["analyze_attachments"]) ++
        ["detect_social_engineering"] ∧
      (v.tool_execution_trace[0]?).map
          (fun tr => (tr.output_summary, tr.execution_time_ms)) =
        some ((resolveResult domainFallback (domainCall req o beh)).output_summary.getD "",
          (resolveResult domainFallback (domainCall req o beh)).execution_time_ms.getD 0) ∧
      (v.tool_execution_trace[1]?).map
          (fun tr => (tr.output_summary, tr.execution_time_ms)) =
        some ((resolveResult urlFallback (urlCall req o beh)).output_summary.getD "",
          (resolveResult urlFallback (urlCall req o beh)).execution_time_ms.getD 0) ∧
      (req.attachments ≠ [] →
        (v.tool_execution_trace[2]?).map
            (fun tr => (tr.output_summary, tr.execution_time_ms)) =
          some ((resolveResult fileFallback (fileCall req o beh)).output_summary.getD "",
            (resolveResult fileFallback (fileCall req o beh)).execution_time_ms.getD 0)) ∧
      (v.tool_execution_trace.getLast?).map
          (fun tr => (tr.output_summary, tr.execution_time_ms)) =
        some ((resolveResult socialFallback (socialCall req o beh)).output_summary.getD "",
          (resolveResult socialFallback (socialCall req o beh)).execution_time_ms.getD 0) := by
  obtain ⟨names, hnames⟩ := filenamesOf_ok req.attachments hatt
  refine ⟨_, analyze_email_content_eq req o beh names hnames, ?_, ?_, ?_, ?_, ?_⟩
  · cases hl : req.attachments with
    | nil => simp [resolvedVerdict, domainTraceEntry, urlTraceEntry, fileTraceEntry,
        socialTraceEntry, hl]
    | cons a as => simp [resolvedVerdict, domainTraceEntry, urlTraceEntry, fileTraceEntry,
        socialTraceEntry, hl]
  · simp [resolvedVerdict, domainTraceEntry]
  · simp [resolvedVerdict, urlTraceEntry]
  · intro hne
    have hf := isEmpty_false_of_ne req.attachments hne
    simp [resolvedVerdict, fileTraceEntry, hf]
  · rw [show (resolvedVerdict req o.nowIso
      (resolveResult domainFallback (domainCall req o beh))
      (resolveResult urlFallback (urlCall req o beh))
      (resolveResult fileFallback (fileCall req o beh))
      (resolveResult socialFallback (socialCall req o beh))
      names).tool_execution_trace =
        [domainTraceEntry req o.nowIso (resolveResult domainFallback (domainCall req o beh)),
         urlTraceEntry req o.nowIso (resolveResult urlFallback (urlCall req o beh))] ++
        (if req.attachments.isEmpty then [] else
          [fileTraceEntry o.nowIso (resolveResult fileFallback (fileCall req o beh)) names]) ++
        [socialTraceEntry req o.nowIso (resolveResult socialFallback (socialCall req o beh))]
      from rfl]
    rw [List.getLast?_append] <;> simp [socialTraceEntry]

/-- Witness for `trace_fixed_order`: for the concrete one-attachment request
the trace names all four tools in declaration order. -/
theorem trace_fixed_order_witness :
    ∃ v, analyze_email_content wReq stubOracles {} = .ok v ∧
      v.tool_execution_trace.map (fun tr => tr.tool_name) =
        ["check_domain_reputation", "scan_urls", "analyze_attachments",
         "detect_social_engineering"] := by
  obtain ⟨v, hv, hmap, _⟩ := trace_fixed_order wReq stubOracles {} (by decide)
  refine ⟨v, hv, ?_⟩
  rw [hmap]
  rfl

/-- Claim C8 counterexample: no fallback dictionary carries a `findings`
entry at all — in particular none carries a single "analysis failed" finding;
the failure notice lives in `output_summary` instead. -/
theorem fallback_no_findings_cex :
    domainFallback.findings = none ∧ urlFallback.findings = none ∧
    fileFallback.findings = none ∧ socialFallback.findings = none :=
  ⟨rfl, rfl, rfl, rfl⟩

/-- Claim C8 (amended): when an analyzer fails, its outcome is replaced
wholesale by the slot's fallback dictionary, which carries the polarity-correct
neutral score (risk 0 for the url, attachment, and social-engineering
analyzers; trust 100 for the domain analyzer) and the output summary
"Analysis failed"; the fallback carries no findings list. -/
theorem fallback_substitution (e : String) :
    resolveResult domainFallback (.error e) = domainFallback ∧
    resolveResult urlFallback (.error e) = urlFallback ∧
    resolveResult fileFallback (.error e) = fileFallback ∧
    resolveResult socialFallback (.error e) = socialFallback ∧
    domainFallback.trust_score = some 100 ∧
    urlFallback.risk_score = some 0 ∧
    fileFallback.risk_score = some 0 ∧
    socialFallback.risk_score = some 0 ∧
    domainFallback.output_summary = some "Analysis failed" ∧
    urlFallback.output_summary = some "Analysis failed" ∧
    fileFallback.output_summary = some "Analysis failed" ∧
    socialFallback.output_summary = some "Analysis failed" ∧
    domainFallback.findings = none ∧ urlFallback.findings = none ∧
    fileFallback.findings = none ∧ socialFallback.findings = none :=
  ⟨rfl, rfl, rfl, rfl, rfl, rfl, rfl, rfl, rfl, rfl, rfl, rfl, rfl, rfl, rfl, rfl⟩

end MailGuard
